import Mathlib

/-!
# Organisation list page (`website/src/pages/orgs.js`)

A shallow embedding of the `Orgs` component: its three state cells
(sort, pagination, filter), the variables object handed to `useQuery`,
the pagination reset effect, and the element tree the component returns.

JavaScript values are modelled only as far as the component inspects them.
A render is a pure function of the state cells and of the query result;
React runs the effects of a render after that render has been committed.
-/

set_option autoImplicit false

namespace Apiary

/-! ## JavaScript values and object literals -/

/-- Values stored in the `variables` object. `φ` is the type of the filter
object built by the `Filter` component, which this page never inspects. -/
inductive JSVal (φ : Type) where
  | undefined : JSVal φ
  | str (s : String) : JSVal φ
  | dict (entries : List (String × String)) : JSVal φ
  | object (o : φ) : JSVal φ
  deriving DecidableEq, Repr

/-- An object as the ordered list of its own properties. -/
abbrev JSObject (φ : Type) := List (String × JSVal φ)

/-- Property definition inside an object literal: a key that is already
present keeps its position and takes the new value, a new key is appended. -/
def setProp {φ : Type} : JSObject φ → String → JSVal φ → JSObject φ
  | [], k, v => [(k, v)]
  | (k0, v0) :: rest, k, v =>
    if k0 = k then (k, v) :: rest else (k0, v0) :: setProp rest k v

/-- Property read `o[k]`: `undefined` when the object has no such property. -/
def getProp {φ : Type} : JSObject φ → String → JSVal φ
  | [], _ => JSVal.undefined
  | (k0, v0) :: rest, k => if k0 = k then v0 else getProp rest k

/-- Array index read `a[i]` on an array of strings. -/
def index {φ : Type} (a : List String) (i : Nat) : JSVal φ :=
  match a.get? i with
  | some s => JSVal.str s
  | none => JSVal.undefined

/-- Conversion of a computed key to a property name. -/
def toPropertyKey {φ : Type} : JSVal φ → String
  | JSVal.undefined => "undefined"
  | JSVal.str s => s
  | JSVal.dict _ => "[object Object]"
  | JSVal.object _ => "[object Object]"

/-! ## State cells -/

/-- The sort cell: `[field, direction]`. -/
abbrev SortSpec := String × String

/-- The three state cells of the component. -/
structure State (φ : Type) where
  sort : SortSpec
  pagination : List String
  filter : Option φ
  deriving DecidableEq, Repr

/-- Modelled from the spec: the `useSort` hook of `hooks/sort` is not part of
the sources; its sort cell starts as the pair of its two arguments. -/
def useSortInitial (field direction : String) : SortSpec := (field, direction)

/-- State of the first render: `useSort('score', 'DESC')`,
`useState(['after'])`, `useState()`. -/
def initialState (φ : Type) : State φ :=
  { sort := useSortInitial "score" "DESC", pagination := ["after"], filter := none }

/-- The filter cell as a JavaScript value. -/
def filterVal {φ : Type} : Option φ → JSVal φ
  | none => JSVal.undefined
  | some f => JSVal.object f

/-- The `variables` option of the `useQuery` call:
`{ sort: { [sort[0]]: sort[1] }, filter, [pagination[0]]: pagination[1] }`. -/
def queryVariables {φ : Type} (st : State φ) : JSObject φ :=
  setProp
    (setProp
      (setProp [] "sort" (JSVal.dict [(st.sort.1, st.sort.2)]))
      "filter" (filterVal st.filter))
    (toPropertyKey (index st.pagination 0 : JSVal φ))
    (index st.pagination 1)

/-- The callback `page`: `setPagination([direction, cursor])`. -/
def page {φ : Type} (direction cursor : String) (st : State φ) : State φ :=
  { st with pagination := [direction, cursor] }

/-- Body of the reset effect: `setPagination([])`. -/
def resetEffect {φ : Type} (st : State φ) : State φ :=
  { st with pagination := [] }

/-- User actions, as the state cell each one writes. `setSort` is the write
that `sortBy` commits to the sort cell. -/
inductive Action (φ : Type) where
  | setSort (s : SortSpec) : Action φ
  | setFilter (f : Option φ) : Action φ
  | page (direction cursor : String) : Action φ
  deriving DecidableEq, Repr

/-- State after the setter of an action has run. -/
def Action.apply {φ : Type} : Action φ → State φ → State φ
  | Action.setSort s, st => { st with sort := s }
  | Action.setFilter f, st => { st with filter := f }
  | Action.page d c, st => Apiary.page d c st

/-- Dependency check of the reset effect, `[sort, filter]`, for the write of
an action. React compares each dependency with `Object.is`: an array or
object that a setter commits is a new reference, so it counts as a change
whatever its content, while `undefined` is the same value as before. `page`
writes neither cell. -/
def depsChanged {φ : Type} (a : Action φ) (st : State φ) : Bool :=
  match a with
  | Action.setSort _ => true
  | Action.setFilter (some _) => true
  | Action.setFilter none => st.filter.isSome
  | Action.page _ _ => false

/-- The renders that follow an action, as the states they read. The first
one is the render caused by the setter. Effects run after that render is
committed; when a dependency of the reset effect changed, its
`setPagination([])` causes a second render. -/
def rendersAfter {φ : Type} [DecidableEq φ] (a : Action φ) (st : State φ) :
    List (State φ) :=
  let st1 := a.apply st
  if depsChanged a st then [st1, resetEffect st1] else [st1]

/-- The variables objects passed to `useQuery` by the renders that follow an
action, in order: the component calls `useQuery` on every render, with the
cells as that render reads them. -/
def queriesAfter {φ : Type} [DecidableEq φ] (a : Action φ) (st : State φ) :
    List (JSObject φ) :=
  (rendersAfter a st).map queryVariables

/-- Serialised form of a variables object, as the query hook compares and
sends it: properties holding `undefined` are dropped. -/
def serialise {φ : Type} [DecidableEq φ] (vars : JSObject φ) : JSObject φ :=
  vars.filter (fun kv => decide (kv.2 ≠ JSVal.undefined))

/-- The fetches issued over a sequence of renders. `useQuery` of
`graphql-hooks` sends its request from an effect keyed on the serialised
options, so a render sends one, with its own variables, when they differ
from those of the render before it. -/
def fetches {φ : Type} [DecidableEq φ] : JSObject φ → List (JSObject φ) → List (JSObject φ)
  | _, [] => []
  | prev, vars :: rest =>
    if serialise vars = serialise prev then fetches vars rest
    else serialise vars :: fetches vars rest

/-- The fetches issued after an action, in order, starting from the render
that preceded the action. -/
def fetchesAfter {φ : Type} [DecidableEq φ] (a : Action φ) (st : State φ) :
    List (JSObject φ) :=
  fetches (queryVariables st) (queriesAfter a st)

/-! ## Query result and records -/

/-- Profile of an organisation. -/
structure Profile where
  name : Option String
  description : Option String
  icon : Option String
  links : List String
  deriving DecidableEq, Repr

/-- One node of `organisations.nodes`. Numbers are kept exact; the page only
forwards them to the number formatter. -/
structure Organisation where
  id : String
  address : String
  ens : Option String
  kit : Option String
  createdAt : Int
  aum : ℚ
  activity : ℚ
  score : ℚ
  profile : Option Profile
  deriving DecidableEq, Repr

/-- The `pageInfo` object of a page of results. -/
structure PageInfo where
  startCursor : Option String
  endCursor : Option String
  hasPreviousPage : Bool
  hasNextPage : Bool
  deriving DecidableEq, Repr

/-- The `organisations` connection of the query. -/
structure Organisations where
  nodes : List Organisation
  pageInfo : PageInfo
  totalCount : ℚ
  totalAUM : ℚ
  totalActivity : ℚ
  deriving DecidableEq, Repr

/-- The `data` object of a successful query. -/
structure Data where
  organisations : Organisations
  deriving DecidableEq, Repr

/-- What `useQuery` returns to the component. -/
structure QueryResult where
  loading : Bool
  error : Bool
  data : Option Data
  deriving DecidableEq, Repr

/-- Errors a render can throw. -/
inductive JSError where
  | typeError (message : String) : JSError
  | rangeError (message : String) : JSError
  deriving DecidableEq, Repr

deriving instance DecidableEq for Except

/-- Member access `data.organisations`: throws when `data` is `undefined`. -/
def readOrganisations : Option Data → Except JSError Organisations
  | some d => Except.ok d.organisations
  | none => Except.error (JSError.typeError "Cannot read property organisations of undefined")

/-- Truthiness of a string that may be `null`: a non-empty string. -/
def truthy : Option String → Bool
  | some s => decide (s ≠ "")
  | none => false

/-! ## Element tree -/

/-- Value of the `sortOrder` prop, `sort[0] === name && sort[1]`: either
`false` or the direction string. -/
inductive SortOrder where
  | jsFalse : SortOrder
  | direction (d : String) : SortOrder
  deriving DecidableEq, Repr

/-- Props of one `SortHeader`; `onClick` is the field handed to `sortBy`. -/
structure SortHeader where
  key : String
  label : String
  onClick : String
  sortOrder : SortOrder
  deriving DecidableEq, Repr

/-- The expression `sort[0] === name && sort[1]`. -/
def sortOrderFor (sort : SortSpec) (name : String) : SortOrder :=
  if sort.1 = name then SortOrder.direction sort.2 else SortOrder.jsFalse

/-- The `fields` prop of the `DataView`: the five sortable column headers. -/
def fields (sort : SortSpec) : List SortHeader :=
  [ { key := "sort-org", label := "Organisation", onClick := "ens",
      sortOrder := sortOrderFor sort "ens" },
    { key := "sort-aum", label := "AUM", onClick := "aum",
      sortOrder := sortOrderFor sort "aum" },
    { key := "sort-activity", label := "Activity (90 days)", onClick := "activity",
      sortOrder := sortOrderFor sort "activity" },
    { key := "sort-score", label := "Score", onClick := "score",
      sortOrder := sortOrderFor sort "score" },
    { key := "sort-created", label := "Created", onClick := "createdAt",
      sortOrder := sortOrderFor sort "createdAt" } ]

/-- A call `formatNumber(value, decimals, scale)`; the formatter itself lives
in `utils/numbers`, outside the sources. -/
structure FormatNumber where
  value : ℚ
  decimals : Option Nat
  scale : Option Nat
  deriving DecidableEq, Repr

/-- Text of a summary box: the literal `-` or a formatted number. -/
inductive Total where
  | dash : Total
  | formatted (call : FormatNumber) : Total
  deriving DecidableEq, Repr

/-- Props of the `DataView`. The three filters of the heading are fixed and
the row callbacks are the functions `renderEntry` and `renderEntryExpansion`
below. -/
structure DataView where
  filters : List (String × String)
  fields : List SortHeader
  entries : List Organisation
  deriving DecidableEq, Repr

/-- The `primary` slot of the `Split`. -/
structure Primary where
  dataView : Option DataView
  windowedPagination : Option PageInfo
  syncIndicator : Option String
  deriving DecidableEq, Repr

/-- The `secondary` slot of the `Split`: the three summary boxes. -/
structure Secondary where
  totalCount : Total
  totalAUM : Total
  totalActivity : Total
  deriving DecidableEq, Repr

/-- What the component returns. -/
inductive View where
  | info (mode text : String) : View
  | page (navTabs : List (String × String)) (primary : Primary)
      (secondary : Secondary) : View
  deriving DecidableEq, Repr

/-- The three filter definitions of the heading, as type and name. -/
def filterDefs : List (String × String) :=
  [("list", "kit"), ("date-range", "createdAt"), ("checkbox", "profile")]

/-- The component body from the `useQuery` result onwards. -/
def Orgs {φ : Type} (st : State φ) (q : QueryResult) : Except JSError View :=
  if q.error then
    Except.ok (View.info "error" "An error occurred. Try again.")
  else
    let firstFetch := q.loading && q.data.isNone
    do
      let dataView : Option DataView ←
        if !firstFetch then do
          let orgs ← readOrganisations q.data
          pure (some { filters := filterDefs, fields := fields st.sort,
                       entries := orgs.nodes })
        else pure none
      let windowedPagination : Option PageInfo ←
        if !firstFetch then do
          let orgs ← readOrganisations q.data
          pure (some orgs.pageInfo)
        else pure none
      let syncIndicator : Option String := if q.loading then some "Loading…" else none
      let totalCount : Total ←
        if firstFetch then pure Total.dash else do
          let orgs ← readOrganisations q.data
          pure (Total.formatted { value := orgs.totalCount, decimals := none, scale := none })
      let totalAUM : Total ←
        if firstFetch then pure Total.dash else do
          let orgs ← readOrganisations q.data
          pure (Total.formatted { value := orgs.totalAUM, decimals := none, scale := none })
      let totalActivity : Total ←
        if firstFetch then pure Total.dash else do
          let orgs ← readOrganisations q.data
          pure (Total.formatted { value := orgs.totalActivity, decimals := none, scale := none })
      pure (View.page [("Organisations", "/orgs"), ("Apps", "/apps")]
        { dataView := dataView, windowedPagination := windowedPagination,
          syncIndicator := syncIndicator }
        { totalCount := totalCount, totalAUM := totalAUM, totalActivity := totalActivity })

/-! ## Date formatting -/

/-- Local calendar fields of a `Date`: `getFullYear()`, `getMonth()`
(zero-based) and `getDate()`. -/
structure LocalDate where
  fullYear : Int
  month : Nat
  date : Nat
  deriving DecidableEq, Repr

/-- The helper `addLeadingZeros(number, targetLength)` of `date-fns` for a
non-negative number: its decimal digits, padded on the left with zeros. -/
def addLeadingZeros (number targetLength : Nat) : List Char :=
  let digits := Nat.toDigits 10 number
  List.replicate (targetLength - digits.length) '0' ++ digits

/-- Splits a pattern into runs of one repeated character. -/
def tokens : List Char → List (Char × Nat)
  | [] => []
  | c :: rest =>
    match tokens rest with
    | (c2, n) :: ts => if c = c2 then (c, n + 1) :: ts else (c, 1) :: (c2, n) :: ts
    | [] => [(c, 1)]

/-- Output of `date-fns` for one token, for the tokens this page can use:
`y` (year, padded to the token length, two-digit for `yy`), `M` and `MM`
(month number), `d` and `dd` (day of month). Other characters that are not
letters or quotes are copied; anything else is outside this fragment. -/
def formatToken (d : LocalDate) (c : Char) (len : Nat) : Option (List Char) :=
  if c = 'y' then
    let year := if 0 < d.fullYear then d.fullYear.toNat else (1 - d.fullYear).toNat
    some (addLeadingZeros (if len = 2 then year % 100 else year) len)
  else if c = 'M' then
    if len ≤ 2 then some (addLeadingZeros (d.month + 1) len) else none
  else if c = 'd' then
    if len ≤ 2 then some (addLeadingZeros d.date len) else none
  else if c.isAlpha || c = '\'' then none
  else some (List.replicate len c)

/-- Formats every token of a pattern in turn. -/
def formatTokens (d : LocalDate) : List (Char × Nat) → Option (List Char)
  | [] => some []
  | (c, n) :: ts =>
    match formatToken d c n, formatTokens d ts with
    | some out, some rest => some (out ++ rest)
    | _, _ => none

/-- The function `format(date, pattern)` of `date-fns`. An invalid date
makes it throw a `RangeError`. For a valid date the result is the formatted
text, or `none` when the pattern leaves the fragment above. -/
def format (date : Option LocalDate) (pattern : String) : Except JSError (Option String) :=
  match date with
  | none => Except.error (JSError.rangeError "Invalid time value")
  | some d => Except.ok ((formatTokens d (tokens pattern.data)).map String.mk)

/-- Largest magnitude of a time value, in milliseconds since the epoch;
`new Date(value)` is an invalid date beyond it. -/
def maxTimeValue : Int := 8640000000000000

/-- Milliseconds in a day. -/
def msPerDay : Int := 86400000

/-- Calendar fields of a day number, counted from 1 January 1970, in the
proleptic Gregorian calendar of `Date`. The day is located in its 400-year
cycle, then in a year of that cycle that starts on 1 March. -/
def civilFromDays (day : Int) : LocalDate :=
  let z := day + 719468
  let era := z / 146097
  let doe := z - era * 146097
  let yoe := (doe - doe / 1460 + doe / 36524 - doe / 146096) / 365
  let doy := doe - (365 * yoe + yoe / 4 - yoe / 100)
  let mp := (5 * doy + 2) / 153
  let m := if mp < 10 then mp + 3 else mp - 9
  { fullYear := yoe + era * 400 + (if m ≤ 2 then 1 else 0),
    month := (m - 1).toNat,
    date := (doy - (153 * mp + 2) / 5 + 1).toNat }

/-- The date `new Date(value)` for a number of milliseconds, read through
its local getters; `none` is an invalid date. `localTZA` gives the offset of
the local time zone, in milliseconds, at a time value. -/
def newDate (localTZA : Int → Int) (value : Int) : Option LocalDate :=
  if value < -maxTimeValue ∨ maxTimeValue < value then none
  else some (civilFromDays ((value + localTZA value) / msPerDay))

/-- The time zone UTC. -/
def utc : Int → Int := fun _ => 0

/-! ## Row callbacks -/

/-- First cell of a row. -/
inductive IdentityCell where
  | iconAndName (src label : String) : IdentityCell
  | identityBadge (entity label popoverTitle : String) : IdentityCell
  deriving DecidableEq, Repr

/-- The five element expressions of the array `renderEntry` returns, each
with what it evaluates to. The date element is an error when `format`
throws; the callback then throws as a whole. -/
structure Row where
  identity : IdentityCell
  aum : FormatNumber
  activity : FormatNumber
  score : FormatNumber
  createdAt : Except JSError (Option String)

/-- The constant `ONE_BILLION`. -/
def ONE_BILLION : Nat := 1000000000

/-- The expression `ens || ''`. -/
def orEmpty (s : Option String) : String :=
  if truthy s then s.getD "" else ""

/-- First cell of `renderEntry`:
`profile && profile.icon && profile.name ? <img/><IdentityBadge/> : <IdentityBadge/>`. -/
def identityCell (org : Organisation) : IdentityCell :=
  match org.profile with
  | some p =>
    if truthy p.icon && truthy p.name then
      IdentityCell.iconAndName (p.icon.getD "") (p.name.getD "")
    else IdentityCell.identityBadge org.address (orEmpty org.ens) (orEmpty org.ens)
  | none => IdentityCell.identityBadge org.address (orEmpty org.ens) (orEmpty org.ens)

/-- The callback `renderEntry`, in the local time zone `localTZA`. -/
def renderEntry (localTZA : Int → Int) (org : Organisation) : Row :=
  { identity := identityCell org,
    aum := { value := org.aum, decimals := some 2, scale := some ONE_BILLION },
    activity := { value := org.activity, decimals := none, scale := none },
    score := { value := org.score * 100, decimals := some 2, scale := none },
    createdAt := format (newDate localTZA org.createdAt) "dd/MM/y" }

/-- Content of the links block of an expansion. -/
inductive LinksBlock where
  | smartLinks (urls : List String) : LinksBlock
  | text (s : String) : LinksBlock
  deriving DecidableEq, Repr

/-- The two blocks of a row expansion; `wrapped` records the extra `div`
of compact mode. -/
structure Expansion where
  description : String
  links : LinksBlock
  wrapped : Bool
  deriving DecidableEq, Repr

/-- Modelled from the spec: `isProfileEmpty` of `utils/utils` is not part of
the sources. A profile is empty when it has no description and no links; a
record without a profile has neither. -/
def isProfileEmpty : Option Profile → Bool
  | none => true
  | some p => !truthy p.description && p.links.isEmpty

/-- The callback `renderEntryExpansion`, over the emptiness test it imports.
The result `none` is the `null` that suppresses the expansion. -/
def renderEntryExpansion (isEmpty : Option Profile → Bool) (compactMode : Bool)
    (profile : Option Profile) : Except JSError (Option Expansion) :=
  if isEmpty profile then Except.ok none
  else
    match profile with
    | none => Except.error (JSError.typeError "Cannot read property description of null")
    | some p =>
      Except.ok (some
        { description :=
            if truthy p.description then p.description.getD ""
            else "No description available.",
          links :=
            if p.links.length > 0 then LinksBlock.smartLinks (p.links.take 2)
            else LinksBlock.text "No links available.",
          wrapped := compactMode })

/-- The pagination cells the component can hold: the empty array written by
the reset effect, the initial one-element array, or a pair written by
`page` with a direction of the pagination control. -/
def isDirective : List String → Bool
  | [] => true
  | [d] => decide (d = "before") || decide (d = "after")
  | [d, _] => decide (d = "before") || decide (d = "after")
  | _ => false

/-- The five sortable columns, as the fields their headers sort by. -/
def sortableFields : List String := ["ens", "aum", "activity", "score", "createdAt"]

/-! ## Sample records -/

/-- A profile with three links and no description. -/
def linksOnlyProfile : Profile :=
  { name := none, description := none, icon := none,
    links := ["https://a.org", "https://b.org", "https://c.org"] }

/-- A record whose profile has both an icon and a name. -/
def namedOrg : Organisation :=
  { id := "1", address := "0xabc", ens := some "a.eth", kit := none,
    createdAt := 1574683200000,
    aum := 0, activity := 0, score := 0,
    profile := some { name := some "A", description := none, icon := some "a.png",
                      links := [] } }

/-- A record whose profile has a name but no icon, and no ENS name. -/
def iconlessOrg : Organisation :=
  { id := "2", address := "0xdef", ens := none, kit := none, createdAt := 1574683200000,
    aum := 0, activity := 0, score := 0,
    profile := some { name := some "B", description := none, icon := none, links := [] } }

/-- A record created at noon UTC on 5 March 987. -/
def medievalOrg : Organisation :=
  { id := "3", address := "0x987", ens := none, kit := none, createdAt := -31014964800000,
    aum := 0, activity := 0, score := 0, profile := none }

/-- A record whose timestamp is one millisecond past the largest time value. -/
def overflowOrg : Organisation :=
  { id := "4", address := "0xfff", ens := none, kit := none, createdAt := 8640000000000001,
    aum := 0, activity := 0, score := 0, profile := none }

/-! ## Properties -/

/-- Reading back the key that was just defined gives the new value. -/
theorem getProp_setProp_same {φ : Type} (o : JSObject φ) (k : String) (v : JSVal φ) :
    getProp (setProp o k v) k = v := by
  induction o with
  | nil => simp [setProp, getProp]
  | cons kv rest ih =>
    obtain ⟨k0, v0⟩ := kv
    by_cases h : k0 = k
    · simp [setProp, getProp, h]
    · simp [setProp, getProp, h, ih]

/-- Defining one key leaves the value read under any other key unchanged. -/
theorem getProp_setProp_other {φ : Type} (o : JSObject φ) (k k1 : String) (v : JSVal φ)
    (h : k ≠ k1) : getProp (setProp o k v) k1 = getProp o k1 := by
  induction o with
  | nil => simp [setProp, getProp, h]
  | cons kv rest ih =>
    obtain ⟨k0, v0⟩ := kv
    by_cases h0 : k0 = k
    · subst h0
      simp [setProp, getProp, h]
    · by_cases h1 : k0 = k1
      · subst h1
        simp [setProp, getProp, h0]
      · simp [setProp, getProp, h0, h1, ih]

/-- After the reset effect the variables bind neither cursor variable. -/
theorem resetEffect_unbinds {φ : Type} (st : State φ) :
    getProp (queryVariables (resetEffect st)) "before" = JSVal.undefined ∧
    getProp (queryVariables (resetEffect st)) "after" = JSVal.undefined := by
  constructor <;> simp [queryVariables, resetEffect, index, toPropertyKey, setProp, getProp]

/-- A sort or filter change is followed by two renders: the first reads the
pagination cell as it was, the second reads the cell emptied by the reset
effect. -/
theorem rendersAfter_change {φ : Type} [DecidableEq φ] (a : Action φ) (st : State φ)
    (h : depsChanged a st = true) :
    rendersAfter a st = [a.apply st, resetEffect (a.apply st)] := by
  simp [rendersAfter, h]

/-- The render that commits a sort change still passes the cursor held
before the change to `useQuery`. -/
theorem sort_change_render_keeps_cursor {φ : Type} [DecidableEq φ] (st : State φ)
    (s : SortSpec) (d c : String) (hp : st.pagination = [d, c]) :
    ∃ vars rest, queriesAfter (Action.setSort s) st = vars :: rest ∧
      getProp vars d = JSVal.str c := by
  refine ⟨queryVariables (Action.apply (Action.setSort s) st),
    [queryVariables (resetEffect (Action.apply (Action.setSort s) st))], ?_, ?_⟩
  · simp [queriesAfter, rendersAfter, depsChanged, Action.apply]
  · simp [queryVariables, Action.apply, hp, index, toPropertyKey, getProp_setProp_same]

/-- C1 (failing input). On the page reached through `after: c1`, changing the
sort from score to aum issues two fetches: the first still binds `after` to
`c1` under the new sort, and only the second one is free of cursors. The
reset runs after the render that commits the change, not before the next
fetch. -/
theorem first_fetch_after_sort_change_keeps_cursor :
    fetchesAfter (Action.setSort ("aum", "DESC"))
      ({ sort := ("score", "DESC"), pagination := ["after", "c1"], filter := none } :
        State Unit) =
    [[("sort", JSVal.dict [("aum", "DESC")]), ("after", JSVal.str "c1")],
     [("sort", JSVal.dict [("aum", "DESC")])]] := by
  decide

/-- C2. For a direction among `before` and `after`, `page(direction, cursor)`
replaces the pagination cell with `[direction, cursor]` and leaves the sort
and filter cells alone; the next render is the only one it causes, and its
variables are exactly `sort`, `filter` and `direction` bound to `cursor`, so
the other cursor variable is unbound. -/
theorem page_binds_cursor {φ : Type} [DecidableEq φ] (st : State φ)
    (direction cursor : String) (hdir : direction = "before" ∨ direction = "after") :
    (page direction cursor st).pagination = [direction, cursor] ∧
    (page direction cursor st).sort = st.sort ∧
    (page direction cursor st).filter = st.filter ∧
    rendersAfter (Action.page direction cursor) st = [page direction cursor st] ∧
    queryVariables (page direction cursor st) =
      [("sort", JSVal.dict [(st.sort.1, st.sort.2)]), ("filter", filterVal st.filter),
       (direction, JSVal.str cursor)] ∧
    getProp (queryVariables (page direction cursor st)) direction = JSVal.str cursor ∧
    (∀ other : String, (other = "before" ∨ other = "after") → other ≠ direction →
      getProp (queryVariables (page direction cursor st)) other = JSVal.undefined) ∧
    getProp (queryVariables (page direction cursor st)) "sort" =
      JSVal.dict [(st.sort.1, st.sort.2)] ∧
    getProp (queryVariables (page direction cursor st)) "filter" = filterVal st.filter := by
  have hvars : queryVariables (page direction cursor st) =
      [("sort", JSVal.dict [(st.sort.1, st.sort.2)]), ("filter", filterVal st.filter),
       (direction, JSVal.str cursor)] := by
    rcases hdir with h | h <;> subst h <;>
      simp [queryVariables, page, index, toPropertyKey, setProp]
  refine ⟨rfl, rfl, rfl, ?_, hvars, ?_, ?_, ?_, ?_⟩
  · simp [rendersAfter, depsChanged, Action.apply, page]
  · rw [hvars]
    rcases hdir with h | h <;> subst h <;> simp [getProp]
  · intro other ho hne
    rw [hvars]
    rcases hdir with h | h <;> subst h <;> rcases ho with h2 | h2 <;> subst h2 <;>
      simp [getProp] at hne ⊢
  · rw [hvars]
    simp [getProp]
  · rw [hvars]
    simp [getProp]

/-- C2 at `page('after', 'c7')` from the initial state. -/
theorem page_binds_cursor_witness :
    ("after" = "before" ∨ "after" = "after") ∧
    getProp (queryVariables (page "after" "c7" (initialState Unit))) "after" =
      JSVal.str "c7" :=
  ⟨Or.inr rfl, (page_binds_cursor (initialState Unit) "after" "c7" (Or.inr rfl)).2.2.2.2.2.1⟩

/-- The computed key of a pagination cell the component can hold is never
`sort` or `filter`. -/
theorem isDirective_key {φ : Type} (p : List String) (h : isDirective p = true) :
    toPropertyKey (index p 0 : JSVal φ) ≠ "sort" ∧
    toPropertyKey (index p 0 : JSVal φ) ≠ "filter" := by
  match p, h with
  | [], _ => simp [index, toPropertyKey]
  | [d], h =>
    simp only [isDirective, Bool.or_eq_true, decide_eq_true_eq] at h
    rcases h with h | h <;> subst h <;> simp [index, toPropertyKey]
  | [d, _], h =>
    simp only [isDirective, Bool.or_eq_true, decide_eq_true_eq] at h
    rcases h with h | h <;> subst h <;> simp [index, toPropertyKey]
  | _ :: _ :: _ :: _, h => simp [isDirective] at h

/-- C3. Whatever the sort and filter cells hold, and for every pagination
cell the component can hold, the variables carry `sort` as an object with
the single key `sort[0]` mapped to `sort[1]`, and `filter` as the very
object the filter cell holds, or `undefined` when the cell holds none; in
the initial state that is `sort = {score: DESC}` and an undefined filter. -/
theorem sort_and_filter_variables {φ : Type} (field direction : String)
    (filter : Option φ) (pagination : List String) (hp : isDirective pagination = true) :
    getProp (queryVariables
      { sort := (field, direction), pagination := pagination, filter := filter })
      "sort" = JSVal.dict [(field, direction)] ∧
    (∀ f : φ, filter = some f →
      getProp (queryVariables
        { sort := (field, direction), pagination := pagination, filter := filter })
        "filter" = JSVal.object f) ∧
    (filter = none →
      getProp (queryVariables
        { sort := (field, direction), pagination := pagination, filter := filter })
        "filter" = JSVal.undefined) ∧
    getProp (queryVariables (initialState φ)) "sort" = JSVal.dict [("score", "DESC")] ∧
    getProp (queryVariables (initialState φ)) "filter" = JSVal.undefined := by
  obtain ⟨h1, h2⟩ := isDirective_key (φ := φ) pagination hp
  refine ⟨?_, ?_, ?_, ?_, ?_⟩
  · simp only [queryVariables]
    rw [getProp_setProp_other _ _ _ _ h1]
    simp [setProp, getProp]
  · intro f hf
    subst hf
    simp only [queryVariables]
    rw [getProp_setProp_other _ _ _ _ h2]
    simp [setProp, getProp, filterVal]
  · intro hf
    subst hf
    simp only [queryVariables]
    rw [getProp_setProp_other _ _ _ _ h2]
    simp [setProp, getProp, filterVal]
  · simp [queryVariables, initialState, useSortInitial, index, toPropertyKey, setProp, getProp]
  · simp [queryVariables, initialState, useSortInitial, index, toPropertyKey, setProp, getProp,
      filterVal]

/-- C3 at sort `aum ASC`, the filter `5`, and the pair `before c3`: the
variables hold `sort = {aum: ASC}` and the filter `5` itself. -/
theorem sort_and_filter_variables_witness :
    isDirective ["before", "c3"] = true ∧
    getProp (queryVariables
      ({ sort := ("aum", "ASC"), pagination := ["before", "c3"], filter := some 5 } :
        State Nat)) "sort" = JSVal.dict [("aum", "ASC")] ∧
    getProp (queryVariables
      ({ sort := ("aum", "ASC"), pagination := ["before", "c3"], filter := some 5 } :
        State Nat)) "filter" = JSVal.object 5 :=
  ⟨by decide,
   (sort_and_filter_variables "aum" "ASC" (some 5) ["before", "c3"] (by decide)).1,
   (sort_and_filter_variables "aum" "ASC" (some 5) ["before", "c3"] (by decide)).2.1 5 rfl⟩

/-- C4. When the query reports an error the component returns the single
error message and nothing else, whatever `loading` and `data` are. -/
theorem error_renders_only_message {φ : Type} (st : State φ) (loading : Bool)
    (data : Option Data) :
    Orgs st { loading := loading, error := true, data := data } =
      Except.ok (View.info "error" "An error occurred. Try again.") := by
  simp [Orgs]

/-- C5. With no error, `loading` true and data present, the page keeps
showing that data: the table holds exactly `data.organisations.nodes`, the
pagination control gets `data.organisations.pageInfo`, the totals are the
formatted totals of that data, and the loading indicator is shown. -/
theorem stale_data_stays_visible {φ : Type} (st : State φ) (d : Data) :
    Orgs st { loading := true, error := false, data := some d } =
      Except.ok (View.page [("Organisations", "/orgs"), ("Apps", "/apps")]
        { dataView := some { filters := filterDefs, fields := fields st.sort,
                             entries := d.organisations.nodes },
          windowedPagination := some d.organisations.pageInfo,
          syncIndicator := some "Loading…" }
        { totalCount := Total.formatted
            { value := d.organisations.totalCount, decimals := none, scale := none },
          totalAUM := Total.formatted
            { value := d.organisations.totalAUM, decimals := none, scale := none },
          totalActivity := Total.formatted
            { value := d.organisations.totalActivity, decimals := none, scale := none } }) := by
  rfl

/-- C6. When the sort field is one of the five sortable columns, the header
of that column, and no other, receives the direction as `sortOrder`; each
of the other four receives `false`. -/
theorem exactly_one_active_column (field direction : String)
    (hf : field ∈ sortableFields) :
    ((fields (field, direction)).filter
      (fun h => decide (h.sortOrder = SortOrder.direction direction))).map
        (fun h => h.onClick) = [field] ∧
    ((fields (field, direction)).filter
      (fun h => decide (h.sortOrder = SortOrder.jsFalse))).length = 4 ∧
    (∀ h ∈ fields (field, direction),
      h.sortOrder = if h.onClick = field then SortOrder.direction direction
        else SortOrder.jsFalse) := by
  simp only [sortableFields, List.mem_cons, List.mem_singleton, List.not_mem_nil,
    or_false] at hf
  rcases hf with h | h | h | h | h <;> subst h <;>
    simp [fields, sortOrderFor, List.filter]

/-- C6 at sort `aum ASC`. -/
theorem exactly_one_active_column_witness :
    "aum" ∈ sortableFields ∧
    ((fields ("aum", "ASC")).filter
      (fun h => decide (h.sortOrder = SortOrder.direction "ASC"))).map
        (fun h => h.onClick) = ["aum"] :=
  ⟨by decide, (exactly_one_active_column "aum" "ASC" (by decide)).1⟩

/-- The expression `ens || ''` is the ENS name, or the empty string when
there is none. -/
theorem orEmpty_eq (s : Option String) : orEmpty s = s.getD "" := by
  cases s with
  | none => simp [orEmpty, truthy]
  | some v =>
    by_cases h : v = ""
    · simp [orEmpty, truthy, h]
    · simp [orEmpty, truthy, h]

/-- C7. For a profile that the emptiness test does not reject, the expansion
is rendered; it shows the first `min 2 |L|` links of the link list `L` in
their order, shows the text `No links available.` exactly when `L` is empty,
and shows the description when the profile has a non-empty one and the text
`No description available.` otherwise. -/
theorem expansion_of_nonempty_profile (isEmpty : Option Profile → Bool)
    (compactMode : Bool) (p : Profile) (hne : isEmpty (some p) = false) :
    ∃ e : Expansion,
      renderEntryExpansion isEmpty compactMode (some p) = Except.ok (some e) ∧
      (p.links ≠ [] → e.links = LinksBlock.smartLinks (p.links.take 2) ∧
        (p.links.take 2).length = min 2 p.links.length ∧
        ∃ rest : List String, p.links = p.links.take 2 ++ rest) ∧
      (e.links = LinksBlock.text "No links available." ↔ p.links = []) ∧
      (∀ text : String, p.description = some text → text ≠ "" → e.description = text) ∧
      (truthy p.description = false → e.description = "No description available.") := by
  refine ⟨_, by simp only [renderEntryExpansion, hne]; rfl, ?_, ?_, ?_, ?_⟩
  · intro hl
    have hpos : 0 < p.links.length := List.length_pos.mpr hl
    exact ⟨by simp [hpos], by simp, p.links.drop 2, (List.take_append_drop 2 p.links).symm⟩
  · constructor
    · intro h
      by_contra hl
      have hpos : 0 < p.links.length := List.length_pos.mpr hl
      simp [hpos] at h
    · intro h
      simp [h]
  · intro text hd ht
    simp [hd, truthy, ht]
  · intro h
    simp [h]

/-- C7 at a profile with three links and no description. -/
theorem expansion_of_nonempty_profile_witness :
    isProfileEmpty (some linksOnlyProfile) = false ∧
    ∃ e : Expansion,
      renderEntryExpansion isProfileEmpty false (some linksOnlyProfile) =
        Except.ok (some e) ∧
      e.links = LinksBlock.smartLinks ["https://a.org", "https://b.org"] ∧
      e.description = "No description available." := by
  refine ⟨by decide, ?_⟩
  obtain ⟨e, he, hl, -, -, hd⟩ :=
    expansion_of_nonempty_profile isProfileEmpty false linksOnlyProfile (by decide)
  exact ⟨e, he, (hl (by decide)).1, hd (by decide)⟩

/-- C8. The identity cell of a row shows the icon and name of the profile
when the record has a profile with a non-empty icon and a non-empty name;
in every other case it shows the badge of the record's address, labelled
with the ENS name, or with the empty string when there is none. -/
theorem identity_cell_of_record (localTZA : Int → Int) (org : Organisation) :
    (renderEntry localTZA org).identity = identityCell org ∧
    (∀ (p : Profile) (icon name : String), org.profile = some p → p.icon = some icon →
      p.name = some name → icon ≠ "" → name ≠ "" →
      identityCell org = IdentityCell.iconAndName icon name) ∧
    ((∀ p : Profile, org.profile = some p → truthy p.icon = false ∨ truthy p.name = false) →
      identityCell org =
        IdentityCell.identityBadge org.address (org.ens.getD "") (org.ens.getD "")) := by
  refine ⟨rfl, ?_, ?_⟩
  · intro p icon name hp hi hn hi0 hn0
    simp [identityCell, hp, hi, hn, truthy, hi0, hn0]
  · intro h
    cases hp : org.profile with
    | none => simp [identityCell, hp, orEmpty_eq]
    | some p =>
      rcases h p hp with h1 | h1 <;> simp [identityCell, hp, h1, orEmpty_eq]

/-- C8 at a record with icon and name, and at one without an icon. -/
theorem identity_cell_of_record_witness :
    identityCell namedOrg = IdentityCell.iconAndName "a.png" "A" ∧
    identityCell iconlessOrg = IdentityCell.identityBadge "0xdef" "" "" :=
  ⟨(identity_cell_of_record utc namedOrg).2.1
      { name := some "A", description := none, icon := some "a.png", links := [] }
      "a.png" "A" rfl rfl rfl (by decide) (by decide),
   (identity_cell_of_record utc iconlessOrg).2.2
      (fun p hp => by
        have hp2 : p = { name := some "B", description := none, icon := none, links := [] } := by
          simpa [iconlessOrg] using hp.symm
        subst hp2
        exact Or.inl rfl)⟩

/-- With fuel left, the digit loop adds at least one digit. -/
theorem toDigitsCore_length_pos (fuel n : Nat) (ds : List Char) :
    ds.length + 1 ≤ (Nat.toDigitsCore 10 (fuel + 1) n ds).length := by
  induction fuel generalizing n ds with
  | zero =>
    simp only [Nat.toDigitsCore]
    split <;> simp [Nat.toDigitsCore]
  | succ k ih =>
    rw [Nat.toDigitsCore]
    split
    · simp
    · have := ih (n / 10) (Nat.digitChar (n % 10) :: ds)
      simp only [List.length_cons] at this
      omega

/-- A number from 1000 on has at least four decimal digits. -/
theorem toDigits_length_ge_four (n : Nat) (h : 1000 ≤ n) :
    4 ≤ (Nat.toDigits 10 n).length := by
  obtain ⟨k, rfl⟩ : ∃ k, n = k + 1000 := ⟨n - 1000, by omega⟩
  have h1 : (k + 1000) / 10 ≠ 0 := by omega
  have h2 : (k + 1000) / 10 / 10 ≠ 0 := by omega
  have h3 : (k + 1000) / 10 / 10 / 10 ≠ 0 := by omega
  have hfuel : k + 1000 + 1 = (k + 997) + 1 + 1 + 1 + 1 := by omega
  rw [Nat.toDigits, hfuel]
  rw [Nat.toDigitsCore]
  simp only [h1, if_false]
  rw [Nat.toDigitsCore]
  simp only [h2, if_false]
  rw [Nat.toDigitsCore]
  simp only [h3, if_false]
  have := toDigitsCore_length_pos (k + 997) ((k + 1000) / 10 / 10 / 10)
    [Nat.digitChar ((k + 1000) / 10 / 10 % 10), Nat.digitChar ((k + 1000) / 10 % 10),
     Nat.digitChar ((k + 1000) % 10)]
  simpa using this

/-- No zero is added to a number that already has the target length. -/
theorem addLeadingZeros_of_long (n len : Nat) (h : len ≤ (Nat.toDigits 10 n).length) :
    addLeadingZeros n len = Nat.toDigits 10 n := by
  simp [addLeadingZeros, Nat.sub_eq_zero_of_le h]

/-- Output of the pattern `dd/MM/y` on a valid date. -/
theorem format_dd_MM_y (d : LocalDate) :
    format (some d) "dd/MM/y" = Except.ok (some (String.mk
      (addLeadingZeros d.date 2 ++ '/' :: addLeadingZeros (d.month + 1) 2 ++
        '/' :: addLeadingZeros
          (if 0 < d.fullYear then d.fullYear.toNat else (1 - d.fullYear).toNat) 1))) := by
  have ht : tokens "dd/MM/y".data = [('d', 2), ('/', 1), ('M', 2), ('/', 1), ('y', 1)] := by
    decide
  simp [format, ht, formatTokens, formatToken]

/-- Output of the pattern `dd/MM/yyyy` on a valid date. -/
theorem format_dd_MM_yyyy (d : LocalDate) :
    format (some d) "dd/MM/yyyy" = Except.ok (some (String.mk
      (addLeadingZeros d.date 2 ++ '/' :: addLeadingZeros (d.month + 1) 2 ++
        '/' :: addLeadingZeros
          (if 0 < d.fullYear then d.fullYear.toNat else (1 - d.fullYear).toNat) 4))) := by
  have ht : tokens "dd/MM/yyyy".data = [('d', 2), ('/', 1), ('M', 2), ('/', 1), ('y', 4)] := by
    decide
  simp [format, ht, formatTokens, formatToken]

/-- The calendar conversion at the epoch, at the day before it, and at the
leap day of the year 2000. -/
theorem civilFromDays_samples :
    civilFromDays 0 = { fullYear := 1970, month := 0, date := 1 } ∧
    civilFromDays (-1) = { fullYear := 1969, month := 11, date := 31 } ∧
    civilFromDays (951782400000 / msPerDay) = { fullYear := 2000, month := 1, date := 29 } := by
  decide

/-- A time value within the range of `Date` gives a valid date. -/
theorem newDate_of_valid (localTZA : Int → Int) (value : Int)
    (hlo : -maxTimeValue ≤ value) (hhi : value ≤ maxTimeValue) :
    newDate localTZA value =
      some (civilFromDays ((value + localTZA value) / msPerDay)) := by
  have h : ¬ (value < -maxTimeValue ∨ maxTimeValue < value) := by omega
  simp [newDate, h]

/-- A time value outside the range of `Date` gives an invalid date. -/
theorem newDate_of_invalid (localTZA : Int → Int) (value : Int)
    (h : value < -maxTimeValue ∨ maxTimeValue < value) :
    newDate localTZA value = none := by
  simp [newDate, h]

/-- C9 (counterexample). The record created at time value -31014964800000,
noon UTC on 5 March 987, is rendered as `05/03/987`, while the pattern
`dd/MM/yyyy` gives `05/03/0987` for the same date: the cell is not formatted
with `dd/MM/yyyy`. The record with time value 8640000000000001 has no
formatted date at all: `format` throws. -/
theorem created_at_differs_from_yyyy :
    newDate utc medievalOrg.createdAt = some { fullYear := 987, month := 2, date := 5 } ∧
    (renderEntry utc medievalOrg).createdAt = Except.ok (some "05/03/987") ∧
    format (newDate utc medievalOrg.createdAt) "dd/MM/yyyy" =
      Except.ok (some "05/03/0987") ∧
    (renderEntry utc medievalOrg).createdAt ≠
      format (newDate utc medievalOrg.createdAt) "dd/MM/yyyy" ∧
    (renderEntry utc overflowOrg).createdAt =
      Except.error (JSError.rangeError "Invalid time value") := by
  decide

/-- C9 (amended). The date cell of every record is
`format(new Date(createdAt), 'dd/MM/y')`. For a timestamp outside the range
of `Date` the call throws. For a timestamp within the range the cell is the
two-digit day, the two-digit month and the year without padding, and for
years from 1000 on that is the text `dd/MM/yyyy` gives. -/
theorem created_at_uses_dd_MM_y (localTZA : Int → Int) (org : Organisation) :
    (renderEntry localTZA org).createdAt =
      format (newDate localTZA org.createdAt) "dd/MM/y" ∧
    ((org.createdAt < -maxTimeValue ∨ maxTimeValue < org.createdAt) →
      (renderEntry localTZA org).createdAt =
        Except.error (JSError.rangeError "Invalid time value")) ∧
    ((-maxTimeValue ≤ org.createdAt ∧ org.createdAt ≤ maxTimeValue) →
      ∃ d : LocalDate,
        d = civilFromDays ((org.createdAt + localTZA org.createdAt) / msPerDay) ∧
        newDate localTZA org.createdAt = some d ∧
        (renderEntry localTZA org).createdAt = Except.ok (some (String.mk
          (addLeadingZeros d.date 2 ++ '/' :: addLeadingZeros (d.month + 1) 2 ++
            '/' :: addLeadingZeros
              (if 0 < d.fullYear then d.fullYear.toNat else (1 - d.fullYear).toNat) 1))) ∧
        (1000 ≤ d.fullYear →
          (renderEntry localTZA org).createdAt = format (some d) "dd/MM/yyyy")) := by
  refine ⟨rfl, ?_, ?_⟩
  · intro h
    show format (newDate localTZA org.createdAt) "dd/MM/y" = _
    rw [newDate_of_invalid localTZA _ h]
    rfl
  · rintro ⟨hlo, hhi⟩
    refine ⟨_, rfl, newDate_of_valid localTZA _ hlo hhi, ?_, ?_⟩
    · show format (newDate localTZA org.createdAt) "dd/MM/y" = _
      rw [newDate_of_valid localTZA _ hlo hhi, format_dd_MM_y]
    · intro hy
      show format (newDate localTZA org.createdAt) "dd/MM/y" = _
      rw [newDate_of_valid localTZA _ hlo hhi, format_dd_MM_y, format_dd_MM_yyyy]
      generalize civilFromDays ((org.createdAt + localTZA org.createdAt) / msPerDay) = d at hy
      have hpos : 0 < d.fullYear := by omega
      have hn : 1000 ≤ d.fullYear.toNat := by omega
      have hlen := toDigits_length_ge_four _ hn
      simp only [hpos, if_true]
      rw [addLeadingZeros_of_long _ 1 (by omega), addLeadingZeros_of_long _ 4 hlen]

/-- C9 (amended) at a record created at noon UTC on 25 November 2019: the
cell is `25/11/2019`, which is also what `dd/MM/yyyy` gives. -/
theorem created_at_uses_dd_MM_y_witness :
    (-maxTimeValue ≤ namedOrg.createdAt ∧ namedOrg.createdAt ≤ maxTimeValue) ∧
    ∃ d : LocalDate,
      d = { fullYear := 2019, month := 10, date := 25 } ∧
      newDate utc namedOrg.createdAt = some d ∧
      (renderEntry utc namedOrg).createdAt = Except.ok (some "25/11/2019") ∧
      (renderEntry utc namedOrg).createdAt = format (some d) "dd/MM/yyyy" := by
  refine ⟨by decide, ?_⟩
  obtain ⟨d, hd, hnew, -, hy⟩ := (created_at_uses_dd_MM_y utc namedOrg).2.2 (by decide)
  have hd2 : d = { fullYear := 2019, month := 10, date := 25 } := by
    rw [hd]
    decide
  exact ⟨d, hd2, hnew, by decide, hy (by rw [hd2]; decide)⟩

/-- C10 (counterexample). With no error, `loading` false and no data, the
render reads `data.organisations` of an absent `data` and throws. -/
theorem settled_without_data_throws :
    Orgs (initialState Unit) { loading := false, error := false, data := none } =
      Except.error
        (JSError.typeError "Cannot read property organisations of undefined") := by
  rfl

/-- C10 (amended). For every query result that reports an error, is loading,
or has data, the render reads no field of absent data and returns a view.
With no error and absent data that view has no table, no pagination control
and `-` for each total; a view that shows a table, a pagination control or a
formatted total comes from a result whose data is present. -/
theorem render_reads_present_data_only {φ : Type} (st : State φ) (q : QueryResult)
    (hq : q.error = true ∨ q.loading = true ∨ q.data.isSome = true) :
    ∃ v : View, Orgs st q = Except.ok v ∧
      (q.error = false → q.data = none →
        v = View.page [("Organisations", "/orgs"), ("Apps", "/apps")]
          { dataView := none, windowedPagination := none,
            syncIndicator := some "Loading…" }
          { totalCount := Total.dash, totalAUM := Total.dash,
            totalActivity := Total.dash }) ∧
      (∀ (navTabs : List (String × String)) (primary : Primary) (secondary : Secondary),
        v = View.page navTabs primary secondary →
        (primary.dataView ≠ none ∨ primary.windowedPagination ≠ none ∨
          secondary.totalCount ≠ Total.dash ∨ secondary.totalAUM ≠ Total.dash ∨
          secondary.totalActivity ≠ Total.dash) →
        ∃ d : Data, q.data = some d ∧
          primary.dataView = some { filters := filterDefs, fields := fields st.sort,
                                    entries := d.organisations.nodes } ∧
          primary.windowedPagination = some d.organisations.pageInfo) := by
  obtain ⟨loading, error, data⟩ := q
  cases error with
  | true =>
    refine ⟨_, by simp [Orgs]; rfl, ?_, ?_⟩
    · intro h
      simp at h
    · intro navTabs primary secondary h
      simp at h
  | false =>
    cases data with
    | none =>
      have hl : loading = true := by simpa using hq
      subst hl
      refine ⟨_, rfl, ?_, ?_⟩
      · intro _ _
        rfl
      · intro navTabs primary secondary h hshow
        injection h with h1 h2 h3
        subst h2 h3
        simp at hshow
    | some d =>
      cases loading with
      | true =>
        refine ⟨_, rfl, ?_, ?_⟩
        · intro _ h
          simp at h
        · intro navTabs primary secondary h _
          injection h with h1 h2 h3
          subst h2 h3
          exact ⟨d, rfl, rfl, rfl⟩
      | false =>
        refine ⟨_, rfl, ?_, ?_⟩
        · intro _ h
          simp at h
        · intro navTabs primary secondary h _
          injection h with h1 h2 h3
          subst h2 h3
          exact ⟨d, rfl, rfl, rfl⟩

/-- C10 (amended) at the first fetch: loading, no error, no data. -/
theorem render_reads_present_data_only_witness :
    ∃ v : View,
      Orgs (initialState Unit) { loading := true, error := false, data := none } =
        Except.ok v ∧
      v = View.page [("Organisations", "/orgs"), ("Apps", "/apps")]
        { dataView := none, windowedPagination := none, syncIndicator := some "Loading…" }
        { totalCount := Total.dash, totalAUM := Total.dash, totalActivity := Total.dash } := by
  obtain ⟨v, hv, hdash, -⟩ := render_reads_present_data_only (initialState Unit)
    { loading := true, error := false, data := none } (Or.inr (Or.inl rfl))
  exact ⟨v, hv, hdash rfl rfl⟩

end Apiary
